import Mathlib

/-!
Shallow embedding of the SRE CLI (`sre.py`): the workload locator, the
label-selector builder, the diagnostic aggregator and the log collector.
Remote cluster state (deployments, pods, log streams) is passed in as
explicit data; `click.echo` / `logging` output is modelled as a list of
findings; a Python exception escaping to the command-level handler is
modelled as an `Option PyExc` terminating the output stream.
-/

namespace SRE

/-- Severity of an emitted line, following the `logging` level used for it. -/
inductive Sev where
  | info
  | warning
deriving DecidableEq, Repr

/-- One emitted diagnostic line (a `click.echo` with its logging severity). -/
structure Finding where
  sev : Sev
  msg : String
deriving DecidableEq, Repr

/-- A Python exception that escapes to the command-level `except` handler:
`AttributeError` from attribute access on `None` (e.g. `None.get`),
`TypeError` from iterating `None`. -/
inductive PyExc where
  | attributeError
  | typeError
deriving DecidableEq, Repr

/-- Python truthiness of an optional dict rendered as an association list:
`None` and `{}` are falsy (`if not labels`). -/
def pyTruthyDict : Option (List (String × String)) → Bool
  | none => false
  | some l => !l.isEmpty

/-- Python truthiness of an optional string: `None` and `""` are falsy. -/
def pyTruthyStr : Option String → Bool
  | none => false
  | some s => s ≠ ""

/-- Python `str()` of an optional int field (`None` prints as "None"). -/
def pyStr : Option Int → String
  | none => "None"
  | some n => toString n

/-- Python `dict.get(k, dflt)` on a dict rendered as an association list. -/
def dictGet (d : List (String × String)) (k dflt : String) : String :=
  match d.find? (fun kv => kv.1 == k) with
  | some kv => kv.2
  | none => dflt

/-- A deployment as the commands read it: `metadata.name`,
`metadata.namespace`, `spec.replicas`, `status.replicas`,
`status.available_replicas`, `spec.template.metadata.labels`.
Replica counts and the label dict may be `None` on the wire. -/
structure Deployment where
  name : String
  ns : String
  specReplicas : Option Int
  statusReplicas : Option Int
  availableReplicas : Option Int
  templateLabels : Option (List (String × String))
deriving DecidableEq, Repr

/-- One iteration of the selector-building loop: append `","` when the
accumulator is non-empty, then `f"{key}={value}"`. -/
def selStep (sel : String) (kv : String × String) : String :=
  (if sel ≠ "" then sel ++ "," else sel) ++ (kv.1 ++ "=" ++ kv.2)

/-- The selector-building loop shared by `diagnostic` and `logs`
(`sre.py` lines 241-245 and 373-377): start from `""` and fold `selStep`
over the label pairs in iteration order. -/
def selectorJoin (labels : List (String × String)) : String :=
  labels.foldl selStep ""

/-- The selector builder as both callers use it: `if not labels:` print an
explanation and skip pod-level work (modelled as `none`), otherwise run the
joining loop (`sre.py` lines 236-245, 368-377). -/
def buildSelector (labels : Option (List (String × String))) : Option String :=
  match labels with
  | none => none
  | some l => if l.isEmpty then none else some (selectorJoin l)

/-- Reference form of "terms joined by commas": `joinComma [a, b, c] =
a ++ "," ++ b ++ "," ++ c`. Stated from the spec's words, to be compared
with the loop in the source. -/
def joinComma : List String → String
  | [] => ""
  | [t] => t
  | t :: t2 :: ts => t ++ "," ++ joinComma (t2 :: ts)

/-- The `key=value` rendering of one label pair. -/
def kvTerm (kv : String × String) : String := kv.1 ++ "=" ++ kv.2

lemma string_append_ne_empty (a b : String) (h : a ≠ "") : a ++ b ≠ "" := by
  intro hab
  apply h
  have hdata : (a ++ b).data = a.data ++ b.data := rfl
  rw [hab] at hdata
  have ha : a.data = [] := (List.append_eq_nil.mp hdata.symm).1
  cases a
  simp_all

lemma kvTerm_ne_empty (kv : String × String) : kvTerm kv ≠ "" := by
  intro h
  have hdata : (kvTerm kv).data = kv.1.data ++ ('='.toString.data ++ kv.2.data) := by
    simp [kvTerm, String.append_assoc]
    rfl
  rw [h] at hdata
  have := (List.append_eq_nil.mp hdata.symm).2
  have := (List.append_eq_nil.mp this).1
  simp [Char.toString] at this

lemma joinComma_cons_append (a t : String) (xs : List String) :
    joinComma ((a ++ "," ++ t) :: xs) = a ++ "," ++ joinComma (t :: xs) := by
  cases xs with
  | nil => rfl
  | cons x xs' => simp [joinComma, String.append_assoc]

lemma selStep_of_ne_empty (acc : String) (kv : String × String) (hacc : acc ≠ "") :
    selStep acc kv = acc ++ "," ++ kvTerm kv := by
  simp [selStep, kvTerm, hacc, String.append_assoc]

lemma selStep_empty (kv : String × String) : selStep "" kv = kvTerm kv := by
  have h : (("" : String) ++ (kv.1 ++ "=" ++ kv.2)) = kv.1 ++ "=" ++ kv.2 := by
    cases kv.1
    cases kv.2
    rfl
  simp [selStep, kvTerm, h]

lemma selectorJoin_go (l : List (String × String)) (acc : String) (hacc : acc ≠ "") :
    l.foldl selStep acc = joinComma (acc :: l.map kvTerm) := by
  induction l generalizing acc with
  | nil => rfl
  | cons kv l' ih =>
    have h1 : List.foldl selStep acc (kv :: l') = List.foldl selStep (selStep acc kv) l' := rfl
    rw [h1, selStep_of_ne_empty acc kv hacc,
      ih _ (string_append_ne_empty _ _ (string_append_ne_empty _ _ hacc)),
      joinComma_cons_append]
    cases l' <;> simp [joinComma]

/-- The selector loop equals the comma-join of the `key=value` terms in
input order. -/
lemma selectorJoin_eq_joinComma (l : List (String × String)) :
    selectorJoin l = joinComma (l.map kvTerm) := by
  cases l with
  | nil => rfl
  | cons kv l' =>
    have h1 : selectorJoin (kv :: l') = List.foldl selStep (selStep "" kv) l' := rfl
    rw [h1, selStep_empty, selectorJoin_go l' (kvTerm kv) (kvTerm_ne_empty kv)]
    rfl

/-! ## Workload locator -/

/-- Outcome of resolving a deployment name with no namespace hint. -/
inductive Resolution where
  | found (d : Deployment)
  | notFound
  | ambiguous (candidates : List Deployment)
deriving DecidableEq, Repr

/-- The filter in the all-namespaces loop: `d.metadata.name == deployment`. -/
def nameMatches (target : String) (d : Deployment) : Bool :=
  d.name == target

/-- The `scale` command's resolution with no `--namespace`
(`sre.py` lines 89-110): collect all deployments whose name matches; none
matching is not-found, more than one prompts for disambiguation with the
matches in listing order, exactly one is used directly (`deployments[0]`). -/
def scaleResolve (cluster : List Deployment) (target : String) : Resolution :=
  let ds := cluster.filter (nameMatches target)
  if ds.isEmpty then Resolution.notFound
  else if 1 < ds.length then Resolution.ambiguous ds
  else
    match ds with
    | d :: _ => Resolution.found d
    | [] => Resolution.notFound

/-- The `info` command's resolution with no `--namespace`
(`sre.py` lines 136-148): collect all deployments whose name matches; none
matching is not-found, otherwise the FIRST match (`deployments[0]`) is used
with no disambiguation. -/
def infoResolve (cluster : List Deployment) (target : String) : Resolution :=
  let ds := cluster.filter (nameMatches target)
  match ds with
  | [] => Resolution.notFound
  | d :: _ => Resolution.found d

/-! ## Workload-level diagnostic findings -/

/-- The workload-level block of `diagnostic` (`sre.py` lines 213-232): the
five informational echoes, then the rollout-not-converged warning when
`spec.replicas != status.replicas`, then the not-all-available warning when
`status.replicas != status.available_replicas`. -/
def workloadFindings (d : Deployment) : List Finding :=
  [⟨Sev.info, "Deployment: " ++ d.name⟩,
   ⟨Sev.info, "Namespace: " ++ d.ns⟩,
   ⟨Sev.info, "Desired Replicas: " ++ pyStr d.specReplicas⟩,
   ⟨Sev.info, "Current Replicas: " ++ pyStr d.statusReplicas⟩,
   ⟨Sev.info, "Available Replicas: " ++ pyStr d.availableReplicas⟩]
  ++ (if d.specReplicas ≠ d.statusReplicas then
        [⟨Sev.warning, "Warning: Desired replicas (" ++ pyStr d.specReplicas
          ++ ") don't match current replicas (" ++ pyStr d.statusReplicas ++ ")!"⟩]
      else [])
  ++ (if d.statusReplicas ≠ d.availableReplicas then
        [⟨Sev.warning, "Warning: Not all replicas are available. Available: "
          ++ pyStr d.availableReplicas ++ ", Total: " ++ pyStr d.statusReplicas⟩]
      else [])

/-- The warnings among a list of findings. -/
def warningsOf (fs : List Finding) : List Finding :=
  fs.filter (fun f => f.sev == Sev.warning)

/-! ## Pod-level diagnostic findings -/

/-- A `V1ResourceRequirements`: `requests` and `limits` are each either a
dict or `None`. -/
structure ResourceReqs where
  requests : Option (List (String × String))
  limits : Option (List (String × String))
deriving DecidableEq, Repr

/-- A container status's `state` as the code probes it: `state.waiting`
(with its `reason`), `state.terminated` (with its `reason`), `state.running`,
checked for truthiness in that order. -/
structure ContainerState where
  waiting : Option String
  terminated : Option String
  running : Bool
deriving DecidableEq, Repr

/-- A `V1ContainerStatus` as the diagnostic reads it. `lastTerminatedReason`
carries `last_state.terminated.reason`; the source never reads it, it is kept
so inputs can carry it. -/
structure ContainerStatus where
  name : String
  state : ContainerState
  resources : Option ResourceReqs
  restartCount : Nat
  lastTerminatedReason : Option String
deriving DecidableEq, Repr

/-- A container entry of `pod.spec.containers` as the diagnostic reads it. -/
structure ContainerSpec where
  name : String
  resources : Option ResourceReqs
deriving DecidableEq, Repr

/-- A `V1Pod` as the diagnostic reads it: `metadata.name`, `status.phase`,
`status.container_statuses` (may be `None` on the wire),
`spec.containers`. -/
structure Pod where
  name : String
  phase : String
  containerStatuses : Option (List ContainerStatus)
  specContainers : List ContainerSpec
deriving DecidableEq, Repr

/-- Emission with abrupt termination: output so far, and the exception that
escaped, if any. -/
abbrev Emit := List Finding × Option PyExc

/-- Sequence two emitting steps: an exception in the first skips the second,
keeping the findings already emitted. -/
def emitSeq (a : Emit) (b : Unit → Emit) : Emit :=
  match a with
  | (fs, some e) => (fs, some e)
  | (fs, none) =>
    let r := b ()
    (fs ++ r.1, r.2)

/-- The state echo for one container status (`sre.py` lines 258-271):
`if state.waiting` emit its reason, `elif state.terminated` emit its reason,
`elif state.running` emit a success line. Nothing else is consulted — in
particular `last_state` is never read. -/
def stateFindings (cs : ContainerStatus) : List Finding :=
  match cs.state.waiting with
  | some r => [⟨Sev.info, "  Container: " ++ cs.name ++ " - Waiting due to: " ++ r⟩]
  | none =>
    match cs.state.terminated with
    | some r => [⟨Sev.info, "  Container: " ++ cs.name ++ " - Terminated due to: " ++ r⟩]
    | none =>
      if cs.state.running then
        [⟨Sev.info, "  Container: " ++ cs.name ++ " - Running successfully"⟩]
      else []

/-- The per-status block (`sre.py` lines 258-283): the state echo, then
`if container_status.resources:` the two resource lines. Lines 274-277 call
`.get` on `resources.requests` and `resources.limits`, so a `None` dict
raises `AttributeError` before the two echoes. -/
def statusBlock (cs : ContainerStatus) : Emit :=
  let sf := stateFindings cs
  match cs.resources with
  | none => (sf, none)
  | some res =>
    match res.requests with
    | none => (sf, some PyExc.attributeError)
    | some reqs =>
      match res.limits with
      | none => (sf, some PyExc.attributeError)
      | some lims =>
        (sf ++
          [⟨Sev.info, "  Container Resources - CPU Request: " ++ dictGet reqs "cpu" "Not Set"
            ++ ", Memory Request: " ++ dictGet reqs "memory" "Not Set"⟩,
           ⟨Sev.info, "  Container Resources - CPU Limit: " ++ dictGet lims "cpu" "Not Set"
            ++ ", Memory Limit: " ++ dictGet lims "memory" "Not Set"⟩], none)

/-- The `for container_status in p.status.container_statuses` loop body
applied in listing order, stopping at the first escaping exception. -/
def statusesBlock : List ContainerStatus → Emit
  | [] => ([], none)
  | cs :: rest => emitSeq (statusBlock cs) (fun _ => statusesBlock rest)

/-- The per-container-spec block (`sre.py` lines 290-295): four echoes
reading `container.resources.requests.get` / `.limits.get` with default
`'Not set'`. A `None` at `resources` or `requests` raises before the first
echo; a `None` at `limits` raises after the CPU-request echo. -/
def specBlock (c : ContainerSpec) : Emit :=
  match c.resources with
  | none => ([], some PyExc.attributeError)
  | some res =>
    match res.requests with
    | none => ([], some PyExc.attributeError)
    | some reqs =>
      let f1 : Finding := ⟨Sev.info, "    CPU Request: " ++ dictGet reqs "cpu" "Not set"⟩
      match res.limits with
      | none => ([f1], some PyExc.attributeError)
      | some lims =>
        ([f1,
          ⟨Sev.info, "    CPU Limit: " ++ dictGet lims "cpu" "Not set"⟩,
          ⟨Sev.info, "    Memory Request: " ++ dictGet reqs "memory" "Not set"⟩,
          ⟨Sev.info, "    Memory Limit: " ++ dictGet lims "memory" "Not set"⟩], none)

/-- The `for container in p.spec.containers` loop applied in listing order,
stopping at the first escaping exception. -/
def specsBlock : List ContainerSpec → Emit
  | [] => ([], none)
  | c :: rest => emitSeq (specBlock c) (fun _ => specsBlock rest)

/-- One pod's block of the diagnostic loop (`sre.py` lines 253-300):
the pod header; the container-status loop (iterating a `None`
`container_statuses` raises `TypeError`); the phase warning for
`Failed`/`Unknown`/`Pending`; the container-spec resource loop; the
restart-count sum with its warning when positive. -/
def podBlock (p : Pod) : Emit :=
  let head : List Finding := [⟨Sev.info, "Pod: " ++ p.name ++ " - Status: " ++ p.phase⟩]
  match p.containerStatuses with
  | none => (head, some PyExc.typeError)
  | some sts =>
    emitSeq (head, none) (fun _ =>
      emitSeq (statusesBlock sts) (fun _ =>
        emitSeq
          ((if ["Failed", "Unknown", "Pending"].contains p.phase then
              [⟨Sev.warning, "Pod " ++ p.name ++ " is in " ++ p.phase
                ++ " state. Further investigation is required."⟩]
            else [], none))
          (fun _ =>
            emitSeq (specsBlock p.specContainers) (fun _ =>
              let total := sts.foldl (fun a cs => a + cs.restartCount) 0
              (if 0 < total then
                [⟨Sev.warning, "Pod " ++ p.name ++ " has " ++ toString total ++ " restarts."⟩]
               else [], none)))))

/-- The `for p in pods` loop (`sre.py` line 253): pods in listing order; the
single surrounding `try` means an exception in one pod's block abandons the
remaining pods (`sre.py` lines 315-317). -/
def runPods : List Pod → Emit
  | [] => ([], none)
  | p :: rest => emitSeq (podBlock p) (fun _ => runPods rest)

/-- The `diagnostic` command after a successful deployment read
(`sre.py` lines 213-300): workload-level findings; with `--pod`, the label
check (falsy labels explain and stop), the selector build, the pod listing
through the facade `podsFor`, the empty-list warning, and the pod loop. -/
def diagnosticCmd (d : Deployment) (includePod : Bool)
    (podsFor : String → List Pod) : Emit :=
  let wf := workloadFindings d
  if includePod then
    if !pyTruthyDict d.templateLabels then
      (wf ++ [⟨Sev.info, "Deployment " ++ d.name ++ " has no labels."⟩], none)
    else
      let sel := selectorJoin (d.templateLabels.getD [])
      let pods := podsFor sel
      if pods.isEmpty then
        (wf ++ [⟨Sev.warning, "No pods found for deployment " ++ d.name
          ++ " in namespace " ++ d.ns ++ "."⟩], none)
      else
        emitSeq (wf, none) (fun _ => runPods pods)
  else (wf, none)

/-! ## The scale command -/

/-- A remote call against the cluster facade, recorded in issue order. -/
inductive ApiCall where
  | readDeployment (name ns : String)
  | listAllDeployments
  | listPods (ns sel : String)
  | readPodLog (pod ns : String) (tail : Int)
  | patchReplicas (name ns : String) (replicas : Int)
deriving DecidableEq, Repr

/-- Terminal outcome of the `scale` command. -/
inductive ScaleOutcome where
  | scaled (name ns : String) (replicas : Int)
  | invalidReplicas
  | notFoundAnywhere
  | invalidSelection
  | unexpectedError
deriving DecidableEq, Repr

/-- The `scale` command (`sre.py` lines 78-116): reject non-positive
`--replicas` first; with a truthy `--namespace` read directly (a 404 lands
in the generic `except Exception` handler, `scale` has no `ApiException`
arm); otherwise list all namespaces and filter by name, prompting on
multiple matches — an index outside `[1, len]` stops with "Invalid
selection.". The operator's prompt answer is the `choice` argument. -/
def scaleCmd (cluster : List Deployment) (target : String) (replicas : Int)
    (nsHint : Option String) (choice : Int) : ScaleOutcome × List ApiCall :=
  if replicas ≤ 0 then (ScaleOutcome.invalidReplicas, [])
  else if pyTruthyStr nsHint then
    let ns := nsHint.getD ""
    match cluster.find? (fun d => d.name == target && d.ns == ns) with
    | none => (ScaleOutcome.unexpectedError, [ApiCall.readDeployment target ns])
    | some d =>
      (ScaleOutcome.scaled d.name d.ns replicas,
       [ApiCall.readDeployment target ns, ApiCall.patchReplicas d.name d.ns replicas])
  else
    let ds := cluster.filter (nameMatches target)
    if ds.isEmpty then (ScaleOutcome.notFoundAnywhere, [ApiCall.listAllDeployments])
    else if 1 < ds.length then
      if choice < 1 ∨ (ds.length : Int) < choice then
        (ScaleOutcome.invalidSelection, [ApiCall.listAllDeployments])
      else
        let d := ds.getD ((choice - 1).toNat) ⟨"", "", none, none, none, none⟩
        (ScaleOutcome.scaled d.name d.ns replicas,
         [ApiCall.listAllDeployments, ApiCall.patchReplicas d.name d.ns replicas])
    else
      match ds with
      | d :: _ =>
        (ScaleOutcome.scaled d.name d.ns replicas,
         [ApiCall.listAllDeployments, ApiCall.patchReplicas d.name d.ns replicas])
      | [] => (ScaleOutcome.unexpectedError, [ApiCall.listAllDeployments])

/-! ## The logs command -/

/-- What one call of `fetch_pod_logs` prints for its pod. -/
inductive LogOutput where
  | text (pod content : String)
  | noLogs (pod : String)
  | fetchError (pod : String)
deriving DecidableEq, Repr

/-- The helper `fetch_pod_logs` (`sre.py` lines 407-420): read the pod's log
tail; an `ApiException` is caught inside the helper and rendered as an error
line for that pod only; an empty response prints "No logs available.". The
remote read is the `fetchLog` argument. -/
def fetch_pod_logs (fetchLog : String → String → Int → Except String String)
    (podName ns : String) (tail : Int) : LogOutput :=
  match fetchLog podName ns tail with
  | Except.error _ => LogOutput.fetchError podName
  | Except.ok s => if s = "" then LogOutput.noLogs podName else LogOutput.text podName s

/-- The per-pod fetch loop of `logs` (`sre.py` lines 384-385). -/
def logsForPods (fetchLog : String → String → Int → Except String String)
    (ns : String) (tail : Int) (pods : List String) : List LogOutput :=
  pods.map (fun p => fetch_pod_logs fetchLog p ns tail)

/-- Terminal outcome of the `logs` command. -/
inductive LogsOutcome where
  | usageError
  | notFound404
  | noLabels (dep : String)
  | noPods (dep : String)
  | collected (results : List LogOutput)
deriving DecidableEq, Repr

/-- The `logs` command (`sre.py` lines 354-404): with neither `--deployment`
nor `--pod` truthy, print a usage error before any remote call; with a
truthy `--deployment` read it (404 renders "Resource not found"), check its
template labels, build the selector, list pods and fetch each pod's tail;
otherwise (`elif pod:`) fetch the named pod's tail directly. -/
def logsCmd (cluster : List Deployment) (podsFor : String → List Pod)
    (fetchLog : String → String → Int → Except String String)
    (deployment pod : Option String) (ns : String) (tail : Int) :
    LogsOutcome × List ApiCall :=
  if !pyTruthyStr deployment && !pyTruthyStr pod then (LogsOutcome.usageError, [])
  else if pyTruthyStr deployment then
    let dname := deployment.getD ""
    match cluster.find? (fun d => d.name == dname && d.ns == ns) with
    | none => (LogsOutcome.notFound404, [ApiCall.readDeployment dname ns])
    | some dep =>
      if !pyTruthyDict dep.templateLabels then
        (LogsOutcome.noLabels dname, [ApiCall.readDeployment dname ns])
      else
        let sel := selectorJoin (dep.templateLabels.getD [])
        let pods := podsFor sel
        if pods.isEmpty then
          (LogsOutcome.noPods dname,
           [ApiCall.readDeployment dname ns, ApiCall.listPods ns sel])
        else
          (LogsOutcome.collected (logsForPods fetchLog ns tail (pods.map Pod.name)),
           [ApiCall.readDeployment dname ns, ApiCall.listPods ns sel]
             ++ pods.map (fun p => ApiCall.readPodLog p.name ns tail))
  else
    match pod with
    | some pname =>
      (LogsOutcome.collected [fetch_pod_logs fetchLog pname ns tail],
       [ApiCall.readPodLog pname ns tail])
    | none => (LogsOutcome.usageError, [])

/-! ## Claim theorems -/

/-- C2: building a label selector from an empty or absent label mapping
fails (the caller prints an explanation and skips pod-level operations);
from a non-empty mapping it yields exactly `len(M)` `key=value` terms,
keys and values exactly as supplied, joined by commas in the iteration
order of the mapping. -/
theorem buildSelector_spec :
    buildSelector none = none ∧ buildSelector (some []) = none ∧
    ∀ l : List (String × String), l ≠ [] →
      buildSelector (some l) = some (joinComma (l.map kvTerm)) ∧
      (l.map kvTerm).length = l.length := by
  refine ⟨rfl, rfl, fun l hl => ⟨?_, by simp⟩⟩
  cases l with
  | nil => exact absurd rfl hl
  | cons kv l' => simp [buildSelector, selectorJoin_eq_joinComma]

/-- Witness for C2 at a concrete two-label mapping. -/
theorem buildSelector_spec_witness :
    ([("app", "myapp"), ("tier", "web")] : List (String × String)) ≠ [] ∧
    buildSelector (some [("app", "myapp"), ("tier", "web")])
      = some (joinComma ([("app", "myapp"), ("tier", "web")].map kvTerm)) ∧
    ([("app", "myapp"), ("tier", "web")].map kvTerm).length
      = ([("app", "myapp"), ("tier", "web")] : List (String × String)).length :=
  ⟨by decide, buildSelector_spec.2.2 [("app", "myapp"), ("tier", "web")] (by decide)⟩

/-- C3 counterexample: a container status Terminated with reason
"OOMKilled" and `last_state.terminated.reason = "OOMKilled"` produces
exactly ONE Info line for that container, not the two the claim requires —
the source never consults the last-terminated reason. -/
theorem stateFindings_oom_counterexample :
    stateFindings ⟨"c1", ⟨none, some "OOMKilled", false⟩, none, 0, some "OOMKilled"⟩
      = [⟨Sev.info, "  Container: c1 - Terminated due to: OOMKilled"⟩] ∧
    (stateFindings ⟨"c1", ⟨none, some "OOMKilled", false⟩, none, 0,
        some "OOMKilled"⟩).length ≠ 2 :=
  ⟨rfl, by decide⟩

/-- C3 amended: in listing order each container status yields one Info —
for Waiting with its reason, for Terminated with its reason, for Running a
success line — and the `lastTerminatedReason` field is never consulted, so
no second Info is ever emitted for a Terminated container. -/
theorem stateFindings_amended :
    (∀ (nm r : String) (t : Option String) (run : Bool) (res : Option ResourceReqs)
        (rc : Nat) (lastReason : Option String),
      stateFindings ⟨nm, ⟨some r, t, run⟩, res, rc, lastReason⟩
        = [⟨Sev.info, "  Container: " ++ nm ++ " - Waiting due to: " ++ r⟩])
    ∧ (∀ (nm r : String) (run : Bool) (res : Option ResourceReqs)
        (rc : Nat) (lastReason : Option String),
      stateFindings ⟨nm, ⟨none, some r, run⟩, res, rc, lastReason⟩
        = [⟨Sev.info, "  Container: " ++ nm ++ " - Terminated due to: " ++ r⟩])
    ∧ (∀ (nm : String) (res : Option ResourceReqs) (rc : Nat)
        (lastReason : Option String),
      stateFindings ⟨nm, ⟨none, none, true⟩, res, rc, lastReason⟩
        = [⟨Sev.info, "  Container: " ++ nm ++ " - Running successfully"⟩]) :=
  ⟨fun _ _ _ _ _ _ _ => rfl, fun _ _ _ _ _ _ => rfl, fun _ _ _ _ => rfl⟩

/-- C4: the diagnostic's workload-level block warns about a non-converged
rollout exactly when desired and current replica counts differ, and
independently warns about unavailable replicas exactly when current and
available counts differ; with all three counts equal no warning is emitted.
Without `--pod` the command emits exactly this block. -/
theorem workloadFindings_warnings :
    ∀ (d : Deployment) (podsFor : String → List Pod),
      diagnosticCmd d false podsFor = (workloadFindings d, none)
      ∧ warningsOf (workloadFindings d) =
          (if d.specReplicas ≠ d.statusReplicas then
            [⟨Sev.warning, "Warning: Desired replicas (" ++ pyStr d.specReplicas
              ++ ") don't match current replicas (" ++ pyStr d.statusReplicas ++ ")!"⟩]
           else [])
          ++ (if d.statusReplicas ≠ d.availableReplicas then
            [⟨Sev.warning, "Warning: Not all replicas are available. Available: "
              ++ pyStr d.availableReplicas ++ ", Total: " ++ pyStr d.statusReplicas⟩]
           else []) := by
  intro d podsFor
  constructor
  · rfl
  · unfold warningsOf workloadFindings
    by_cases h1 : d.specReplicas = d.statusReplicas <;>
      by_cases h2 : d.statusReplicas = d.availableReplicas <;>
        simp [h1, h2, List.filter_append]

/-- C1 counterexample: with two deployments named "myapp" in different
namespaces and no namespace hint, the `info` command's resolution returns
the FIRST match instead of requiring disambiguation, although two
candidates match. -/
theorem infoResolve_counterexample :
    infoResolve
      [⟨"myapp", "ns1", some 1, some 1, some 1, some [("app", "myapp")]⟩,
       ⟨"myapp", "ns2", some 1, some 1, some 1, some [("app", "myapp")]⟩] "myapp"
      = Resolution.found ⟨"myapp", "ns1", some 1, some 1, some 1, some [("app", "myapp")]⟩
    ∧ (List.filter (nameMatches "myapp")
        [⟨"myapp", "ns1", some 1, some 1, some 1, some [("app", "myapp")]⟩,
         ⟨"myapp", "ns2", some 1, some 1, some 1, some [("app", "myapp")]⟩]).length = 2 :=
  ⟨rfl, rfl⟩

/-- C1 amended: the `scale` command's resolution without a namespace hint
returns Found exactly when exactly one workload matches the name, NotFound
exactly when none match, and Ambiguous with the candidates in listing order
exactly when two or more match; the `info` command's resolution instead
returns the first match automatically whenever at least one exists. -/
theorem resolve_amended :
    ∀ (cluster : List Deployment) (nm : String),
      (scaleResolve cluster nm = Resolution.notFound
        ↔ cluster.filter (nameMatches nm) = [])
      ∧ (∀ d, scaleResolve cluster nm = Resolution.found d
        ↔ cluster.filter (nameMatches nm) = [d])
      ∧ (∀ cs, scaleResolve cluster nm = Resolution.ambiguous cs
        ↔ (cs = cluster.filter (nameMatches nm) ∧ 2 ≤ cs.length))
      ∧ (∀ d ds, cluster.filter (nameMatches nm) = d :: ds
        → infoResolve cluster nm = Resolution.found d) := by
  intro cluster nm
  rcases h : cluster.filter (nameMatches nm) with _ | ⟨d0, _ | ⟨d1, t⟩⟩
  · refine ⟨by simp [scaleResolve, h], fun d => ?_, fun cs => ?_, fun d ds hds => ?_⟩
    · simp [scaleResolve, h]
    · simp [scaleResolve, h]
      rintro rfl
      simp
    · simp [h] at hds
  · refine ⟨by simp [scaleResolve, h], fun d => ?_, fun cs => ?_, fun d ds hds => ?_⟩
    · simp [scaleResolve, h]
    · simp [scaleResolve, h]
      rintro rfl
      simp
    · cases hds
      simp [infoResolve, h]
  · refine ⟨by simp [scaleResolve, h], fun d => ?_, fun cs => ?_, fun d ds hds => ?_⟩
    · simp [scaleResolve, h]
    · constructor
      · intro hc
        simp [scaleResolve, h] at hc
        subst hc
        simp
      · rintro ⟨rfl, _⟩
        simp [scaleResolve, h]
    · cases hds
      simp [infoResolve, h]

/-- Witness for C1 as amended: a workload "myapp" existing only in
"mynamespace" is found by both commands' resolution. -/
theorem resolve_amended_witness :
    scaleResolve [⟨"myapp", "mynamespace", some 3, some 3, some 3, none⟩] "myapp"
      = Resolution.found ⟨"myapp", "mynamespace", some 3, some 3, some 3, none⟩
    ∧ infoResolve [⟨"myapp", "mynamespace", some 3, some 3, some 3, none⟩] "myapp"
      = Resolution.found ⟨"myapp", "mynamespace", some 3, some 3, some 3, none⟩ :=
  ⟨((resolve_amended [⟨"myapp", "mynamespace", some 3, some 3, some 3, none⟩]
      "myapp").2.1 ⟨"myapp", "mynamespace", some 3, some 3, some 3, none⟩).mpr
      (by decide),
   (resolve_amended [⟨"myapp", "mynamespace", some 3, some 3, some 3, none⟩]
      "myapp").2.2.2 ⟨"myapp", "mynamespace", some 3, some 3, some 3, none⟩ []
      (by decide)⟩

/-- C6 counterexample: in a two-pod report where the first pod's
`container_statuses` is absent, the whole pod loop stops at the raised
exception — the second pod's findings are never produced and no Warning
finding records the failure, contradicting the claimed per-pod isolation. -/
theorem runPods_abort_counterexample :
    runPods [⟨"p1", "Pending", none, []⟩, ⟨"p2", "Running", some [], []⟩]
      = ([⟨Sev.info, "Pod: p1 - Status: Pending"⟩], some PyExc.typeError)
    ∧ Finding.mk Sev.info "Pod: p2 - Status: Running"
        ∉ (runPods [⟨"p1", "Pending", none, []⟩, ⟨"p2", "Running", some [], []⟩]).1
    ∧ (∀ f ∈ (runPods [⟨"p1", "Pending", none, []⟩,
          ⟨"p2", "Running", some [], []⟩]).1, f.sev ≠ Sev.warning) :=
  ⟨rfl, by decide, by decide⟩

/-- C6 amended: the pod loop runs inside one exception handler, so a pod
with missing detail aborts the remaining aggregation: a pod whose
`container_statuses` is absent yields only its header finding plus the
escaping exception, and no later pod is processed; only a pod whose
container-status list is present but empty degrades to fewer findings and
lets aggregation continue. -/
theorem runPods_amended :
    (∀ (nm ph : String) (specs : List ContainerSpec) (rest : List Pod),
      runPods (⟨nm, ph, none, specs⟩ :: rest)
        = ([⟨Sev.info, "Pod: " ++ nm ++ " - Status: " ++ ph⟩], some PyExc.typeError))
    ∧ (∀ (nm : String) (rest : List Pod),
      runPods (⟨nm, "Running", some [], []⟩ :: rest)
        = (⟨Sev.info, "Pod: " ++ nm ++ " - Status: " ++ "Running"⟩ :: (runPods rest).1,
           (runPods rest).2)) :=
  ⟨fun _ _ _ _ => rfl, fun _ _ => rfl⟩

/-- C7 counterexample: a container spec with no resources object makes the
per-container resource block raise instead of emitting the four Info lines
with "not set" sentinels — a missing resource declaration fails the
operation. -/
theorem specBlock_counterexample :
    specBlock ⟨"c1", none⟩ = ([], some PyExc.attributeError)
    ∧ (specBlock ⟨"c1", none⟩).2 ≠ none :=
  ⟨rfl, by decide⟩

/-- C7 amended: for each container spec the diagnostic emits Info findings
for CPU request, CPU limit, memory request and memory limit with the
literal "Not set" sentinel substituted for each key absent from a PRESENT
requests/limits dict; but an absent resources object or an absent
requests/limits dict raises `AttributeError` and fails the operation (after
the CPU-request line when only `limits` is absent). -/
theorem specBlock_amended :
    (∀ nm : String, specBlock ⟨nm, none⟩ = ([], some PyExc.attributeError))
    ∧ (∀ (nm : String) (lims : Option (List (String × String))),
        specBlock ⟨nm, some ⟨none, lims⟩⟩ = ([], some PyExc.attributeError))
    ∧ (∀ (nm : String) (reqs : List (String × String)),
        specBlock ⟨nm, some ⟨some reqs, none⟩⟩
          = ([⟨Sev.info, "    CPU Request: " ++ dictGet reqs "cpu" "Not set"⟩],
             some PyExc.attributeError))
    ∧ (∀ (nm : String) (reqs lims : List (String × String)),
        specBlock ⟨nm, some ⟨some reqs, some lims⟩⟩
          = ([⟨Sev.info, "    CPU Request: " ++ dictGet reqs "cpu" "Not set"⟩,
              ⟨Sev.info, "    CPU Limit: " ++ dictGet lims "cpu" "Not set"⟩,
              ⟨Sev.info, "    Memory Request: " ++ dictGet reqs "memory" "Not set"⟩,
              ⟨Sev.info, "    Memory Limit: " ++ dictGet lims "memory" "Not set"⟩], none))
    ∧ (∀ k dflt : String, dictGet [] k dflt = dflt) :=
  ⟨fun _ => rfl, fun _ _ => rfl, fun _ _ => rfl, fun _ _ _ => rfl, fun _ _ => rfl⟩

/-- C5: per-pod log fetches are independent — the result for each pod is a
function of that pod's own fetch only, a failing pod yields an error-marked
entry without affecting the others, the result sequence keeps one entry per
pod, and a successful fetch with empty content yields the explicit
"no logs available" result, a different constructor from a fetch error. -/
theorem logs_isolation :
    ∀ (fetchLog : String → String → Int → Except String String)
      (ns : String) (tail : Int) (pre post : List String) (p : String),
      logsForPods fetchLog ns tail (pre ++ p :: post)
        = logsForPods fetchLog ns tail pre
          ++ fetch_pod_logs fetchLog p ns tail :: logsForPods fetchLog ns tail post
      ∧ (logsForPods fetchLog ns tail (pre ++ p :: post)).length
          = pre.length + 1 + post.length
      ∧ (fetchLog p ns tail = Except.ok "" →
          fetch_pod_logs fetchLog p ns tail = LogOutput.noLogs p)
      ∧ (∀ msg, fetchLog p ns tail = Except.error msg →
          fetch_pod_logs fetchLog p ns tail = LogOutput.fetchError p)
      ∧ (∀ s, fetchLog p ns tail = Except.ok s → s ≠ "" →
          fetch_pod_logs fetchLog p ns tail = LogOutput.text p s)
      ∧ (∀ q q2 : String, LogOutput.noLogs q ≠ LogOutput.fetchError q2) := by
  intro fetchLog ns tail pre post p
  refine ⟨by simp [logsForPods], by simp [logsForPods]; omega, ?_, ?_, ?_, ?_⟩
  · intro h
    simp [fetch_pod_logs, h]
  · intro msg h
    simp [fetch_pod_logs, h]
  · intro s h hs
    simp [fetch_pod_logs, h, hs]
  · intro q q2 h
    cases h

/-- Witness for C5: three pods where the second one's fetch fails — three
results, the middle one error-marked, computed entry by entry. -/
theorem logs_isolation_witness :
    logsForPods
        (fun pd _ _ => if pd = "pod2" then Except.error "boom"
          else Except.ok ("log-" ++ pd)) "ns" 50 (["pod1"] ++ "pod2" :: ["pod3"])
      = logsForPods
          (fun pd _ _ => if pd = "pod2" then Except.error "boom"
            else Except.ok ("log-" ++ pd)) "ns" 50 ["pod1"]
        ++ fetch_pod_logs
            (fun pd _ _ => if pd = "pod2" then Except.error "boom"
              else Except.ok ("log-" ++ pd)) "pod2" "ns" 50
          :: logsForPods
              (fun pd _ _ => if pd = "pod2" then Except.error "boom"
                else Except.ok ("log-" ++ pd)) "ns" 50 ["pod3"]
    ∧ fetch_pod_logs
        (fun pd _ _ => if pd = "pod2" then Except.error "boom"
          else Except.ok ("log-" ++ pd)) "pod2" "ns" 50 = LogOutput.fetchError "pod2"
    ∧ (logsForPods
        (fun pd _ _ => if pd = "pod2" then Except.error "boom"
          else Except.ok ("log-" ++ pd)) "ns" 50
        (["pod1"] ++ "pod2" :: ["pod3"])).length = 3 := by
  have T := logs_isolation
    (fun pd _ _ => if pd = "pod2" then Except.error "boom"
      else Except.ok ("log-" ++ pd)) "ns" 50 ["pod1"] ["pod3"] "pod2"
  exact ⟨T.1, T.2.2.2.1 "boom" rfl, T.2.1⟩

/-- C8: when resolution without a hint finds two or more candidates and the
operator's selection index falls outside `[1, k]`, the scale command stops
with "Invalid selection." after the single cluster-wide list call — no
retry, no defaulted candidate, and no replica patch is ever issued. -/
theorem scale_invalid_selection :
    ∀ (cluster : List Deployment) (target : String) (replicas choice : Int),
      0 < replicas →
      1 < (cluster.filter (nameMatches target)).length →
      (choice < 1 ∨ ((cluster.filter (nameMatches target)).length : Int) < choice) →
      scaleCmd cluster target replicas none choice
        = (ScaleOutcome.invalidSelection, [ApiCall.listAllDeployments])
      ∧ ∀ (nm2 ns2 : String) (r2 : Int),
          ApiCall.patchReplicas nm2 ns2 r2
            ∉ (scaleCmd cluster target replicas none choice).2 := by
  intro cluster target replicas choice hrep hlen hchoice
  have hmain : scaleCmd cluster target replicas none choice
      = (ScaleOutcome.invalidSelection, [ApiCall.listAllDeployments]) := by
    unfold scaleCmd
    have h0 : ¬ replicas ≤ 0 := by omega
    cases hf : cluster.filter (nameMatches target) with
    | nil =>
      rw [hf] at hlen
      simp at hlen
    | cons d t =>
      rw [hf] at hlen hchoice
      simp only [List.length_cons] at hlen hchoice
      push_cast at hchoice
      have h1 : 0 < t.length := by omega
      simp [h0, pyTruthyStr, hf, h1, hchoice]
  refine ⟨hmain, ?_⟩
  rw [hmain]
  intro nm2 ns2 r2 hmem
  simp at hmem

/-- Witness for C8: two deployments named "myapp", selection index 3. -/
theorem scale_invalid_selection_witness :
    0 < (5 : Int)
    ∧ 1 < (List.filter (nameMatches "myapp")
        [⟨"myapp", "ns1", some 1, some 1, some 1, none⟩,
         ⟨"myapp", "ns2", some 1, some 1, some 1, none⟩]).length
    ∧ ((List.filter (nameMatches "myapp")
        [⟨"myapp", "ns1", some 1, some 1, some 1, none⟩,
         ⟨"myapp", "ns2", some 1, some 1, some 1, none⟩]).length : Int) < 3
    ∧ scaleCmd
        [⟨"myapp", "ns1", some 1, some 1, some 1, none⟩,
         ⟨"myapp", "ns2", some 1, some 1, some 1, none⟩] "myapp" 5 none 3
      = (ScaleOutcome.invalidSelection, [ApiCall.listAllDeployments]) :=
  ⟨by decide, by decide, by decide,
   (scale_invalid_selection
     [⟨"myapp", "ns1", some 1, some 1, some 1, none⟩,
      ⟨"myapp", "ns2", some 1, some 1, some 1, none⟩] "myapp" 5 3
     (by decide) (by decide) (Or.inr (by decide))).1⟩

/-- C9: a `--replicas` value of zero or less is rejected at the very start
of the scale command — no workload is read, no namespaces are listed, and
no patch is issued (the recorded call list is empty). -/
theorem scale_rejects_nonpositive :
    ∀ (cluster : List Deployment) (target : String) (nsHint : Option String)
      (choice replicas : Int), replicas ≤ 0 →
      scaleCmd cluster target replicas nsHint choice
        = (ScaleOutcome.invalidReplicas, []) := by
  intro cluster target nsHint choice replicas h
  unfold scaleCmd
  simp [h]

/-- Witness for C9: scaling to 0 replicas. -/
theorem scale_rejects_nonpositive_witness :
    (0 : Int) ≤ 0
    ∧ scaleCmd [⟨"myapp", "ns1", some 3, some 3, some 3, none⟩] "myapp" 0
        (some "ns1") 1 = (ScaleOutcome.invalidReplicas, []) :=
  ⟨by decide,
   scale_rejects_nonpositive [⟨"myapp", "ns1", some 3, some 3, some 3, none⟩]
     "myapp" (some "ns1") 1 0 (by decide)⟩

/-- C10: with neither `--deployment` nor `--pod` truthy the logs command
prints a usage error and makes no remote call; with both supplied the
deployment branch runs and the result does not depend on the pod argument
at all. -/
theorem logs_boundary :
    ∀ (cluster : List Deployment) (podsFor : String → List Pod)
      (fetchLog : String → String → Int → Except String String)
      (dep pod pod2 : Option String) (ns : String) (tail : Int),
      (pyTruthyStr dep = false → pyTruthyStr pod = false →
        logsCmd cluster podsFor fetchLog dep pod ns tail = (LogsOutcome.usageError, []))
      ∧ (pyTruthyStr dep = true →
        logsCmd cluster podsFor fetchLog dep pod ns tail
          = logsCmd cluster podsFor fetchLog dep pod2 ns tail) := by
  intro cluster podsFor fetchLog dep pod pod2 ns tail
  constructor
  · intro hd hp
    unfold logsCmd
    simp [hd, hp]
  · intro hd
    unfold logsCmd
    simp [hd]

/-- Witness for C10: no target at all gives the usage error; a deployment
target with a pod name alongside behaves exactly as with no pod name. -/
theorem logs_boundary_witness :
    pyTruthyStr (none : Option String) = false
    ∧ logsCmd [] (fun _ => []) (fun _ _ _ => Except.ok "") none none "ns" 50
        = (LogsOutcome.usageError, [])
    ∧ pyTruthyStr (some "myapp") = true
    ∧ logsCmd [] (fun _ => []) (fun _ _ _ => Except.ok "")
        (some "myapp") (some "ignored") "ns" 50
      = logsCmd [] (fun _ => []) (fun _ _ _ => Except.ok "")
        (some "myapp") none "ns" 50 :=
  ⟨rfl,
   (logs_boundary [] (fun _ => []) (fun _ _ _ => Except.ok "")
     none none none "ns" 50).1 rfl rfl,
   by decide,
   (logs_boundary [] (fun _ => []) (fun _ _ _ => Except.ok "")
     (some "myapp") (some "ignored") none "ns" 50).2 (by decide)⟩

end SRE
